import Mathlib

/-!
Verification of the JOKKO AI chat service (`src/App.py`).

The program is a FastAPI application with three routes:
* `GET /`            — static welcome payload (`root`, lines 66-72);
* `GET /api/health`  — static health payload (`health`, lines 74-80);
* `POST /api/chat`   — the keyword-matching chat handler (`chat`, lines 82-125).

Shallow embedding conventions:
* Python `dict` literals become association lists (`List (String × _)`);
  `d[k]` (which raises `KeyError` when absent) becomes `dictGet`, returning
  `Except String`; `k in d` becomes `(d.lookup k).isSome`.
* `str.lower()` becomes a character-wise map (`pyLowerChar`, `lower`) that
  coincides with Python's lowercasing on every Latin-1 character (code
  points 0-255): on that range Python's `str.lower()` maps each character
  independently, with no multi-character expansions and no context rules,
  taking `A`-`Z` and `À`-`Þ` (except `×`) to the code point 32 higher and
  fixing everything else.  Beyond Latin-1 Python's lowercasing needs the
  full Unicode tables and context rules (dotted capital `İ`, final sigma),
  which this embedding does not model; the theorems whose hypotheses
  constrain which keywords the *lowered* message avoids therefore carry an
  explicit all-characters-Latin-1 hypothesis marking that modelled domain.
* `k in message` (substring test) becomes list-infix containment of the
  keyword's character list in the message's character list.
* Python `float` confidences become exact rationals: the program only ever
  stores and compares the literals `0.9`, `0.85`, `0.7`, never computes
  with them, so the exact-decimal embedding is faithful.
* The `try ... except Exception` boundary of the handler becomes
  `handleBoundary : Except String ChatResponse → Except HTTPException ChatResponse`;
  an uncaught Python exception is an `Except.error` carrying its text.
-/

namespace Jokko

/-- `ChatRequest` (App.py lines 7-10): `message` required, `language`
defaulting to `"it"`, `user_id` optional and unused. -/
structure ChatRequest where
  message : String
  language : String := "it"
  user_id : Option String := none
deriving DecidableEq, Repr

/-- One `{title, url}` source citation entry (App.py lines 117-120). -/
structure SourceLink where
  title : String
  url : String
deriving DecidableEq, Repr

/-- `ChatResponse` (App.py lines 12-17).  The Pydantic model declares
`category` as optional with default `None`, but the handler supplies a
category on every path, so it is embedded as a plain `String`. -/
structure ChatResponse where
  response : String
  language : String
  sources : List SourceLink
  category : String
  confidence : ℚ
deriving DecidableEq, Repr

/-- The FastAPI error raised at the handler boundary (App.py line 125). -/
structure HTTPException where
  status_code : Nat
  detail : String
deriving DecidableEq, Repr

/-- `SUPPORTED_LANGUAGES` (App.py lines 19-23): eleven code ↦ display-name
entries. -/
def SUPPORTED_LANGUAGES : List (String × String) :=
  [("it", "Italiano"), ("fr", "Français"), ("en", "English"), ("wo", "Wolof"),
   ("bm", "Bambara"), ("ha", "Hausa"), ("am", "Amarico"), ("ti", "Tigrinya"),
   ("lg", "Lingala"), ("ff", "Pulaar"), ("so", "Soninke")]

/-- The Italian table of `SAMPLE_RESPONSES` (App.py lines 26-33). -/
def itResponses : List (String × String) :=
  [("permesso_soggiorno", "Per il permesso di soggiorno devi recarti in Questura con passaporto, foto tessera, marca da bollo da €16..."),
   ("lavoro", "Per cercare lavoro in Italia puoi usare i centri per l'impiego, InfoJobs, agenzie interinali..."),
   ("casa", "Per trovare casa puoi usare Immobiliare.it, Subito, Idealista o contattare associazioni locali..."),
   ("sanita", "Il SSN garantisce cure gratuite: chiedi la tessera sanitaria alla ASL e scegli un medico di base..."),
   ("diritti", "Hai diritto a: assistenza legale gratuita, protezione dalla discriminazione, accesso alla sanità e istruzione..."),
   ("default", "Ciao! Sono JOKKO AI. Posso aiutarti su: permesso di soggiorno, lavoro, casa, sanità, diritti. Dimmi pure!")]

/-- The English table of `SAMPLE_RESPONSES` (App.py lines 34-41). -/
def enResponses : List (String × String) :=
  [("permesso_soggiorno", "For residence permit, go to Questura with passport, ID photo, €16 tax stamp..."),
   ("lavoro", "To find work in Italy: register at job centers, use InfoJobs, temp agencies..."),
   ("casa", "To find a house, use Immobiliare.it, Idealista, or contact local associations..."),
   ("sanita", "Italy provides free healthcare: get your health card at ASL and choose a GP..."),
   ("diritti", "You have the right to free legal aid, education, work and healthcare..."),
   ("default", "Hello! I’m JOKKO AI. I can help with: residence permit, work, housing, healthcare, rights.")]

/-- The French table of `SAMPLE_RESPONSES` (App.py lines 42-49). -/
def frResponses : List (String × String) :=
  [("permesso_soggiorno", "Pour le titre de séjour, allez à la Questura avec passeport, photos, timbre fiscal de 16€..."),
   ("lavoro", "Pour trouver du travail : centres d'emploi, InfoJobs, agences intérimaires..."),
   ("casa", "Utilisez Immobiliare.it, Idealista ou contactez les associations locales..."),
   ("sanita", "Le SSN fournit des soins gratuits : demandez votre carte sanitaire à l'ASL..."),
   ("diritti", "Vous avez droit à : aide juridique, santé, travail régulier, éducation..."),
   ("default", "Salut ! Je suis JOKKO AI. Je peux vous aider avec : séjour, travail, logement, santé, droits.")]

/-- `SAMPLE_RESPONSES` (App.py lines 25-50): language code ↦ category ↦
canned text, populated for three languages. -/
def SAMPLE_RESPONSES : List (String × List (String × String)) :=
  [("it", itResponses), ("en", enResponses), ("fr", frResponses)]

/-- Python `d[k]` on a dict: the value when the key is present, otherwise a
`KeyError` exception carrying the key. -/
def dictGet {α : Type} (d : List (String × α)) (k : String) : Except String α :=
  match d.lookup k with
  | some v => Except.ok v
  | none => Except.error ("KeyError: " ++ k)

/-- Python's `str.lower()` on one character, exact on the Latin-1 range:
code points 65-90 (`A`-`Z`) and 192-222 (`À`-`Þ`) except 215 (`×`) move up
by 32 (so `É` becomes `é`); every other Latin-1 character is unchanged.
Characters above 255 are left unchanged — outside the embedding's modelled
text domain. -/
def pyLowerChar (c : Char) : Char :=
  if (65 ≤ c.toNat ∧ c.toNat ≤ 90) ∨
      (192 ≤ c.toNat ∧ c.toNat ≤ 222 ∧ c.toNat ≠ 215) then
    Char.ofNat (c.toNat + 32)
  else c

/-- `message.lower()` (App.py line 85) as a character list.  On Latin-1
strings Python lowercases character by character with no expansions, so the
map coincides with `str.lower()` there. -/
def lower (s : String) : List Char :=
  s.data.map pyLowerChar

/-- Python `k in message`: `k` occurs as a contiguous substring. -/
def pyIn (k : String) (message : List Char) : Bool :=
  decide (k.data <:+: message)

/-- `any(k in message for k in ks)` (App.py lines 89, 93, 97, 101, 105). -/
def containsAny (message : List Char) (ks : List String) : Bool :=
  ks.any (fun k => pyIn k message)

/-- Residence-permit keywords (App.py line 89). -/
def kwPermesso : List String := ["permesso", "soggiorno", "séjour", "permit"]

/-- Work keywords (App.py line 93). -/
def kwLavoro : List String := ["lavoro", "job", "work", "emploi"]

/-- Housing keywords (App.py line 97). -/
def kwCasa : List String := ["casa", "house", "logement", "rent"]

/-- Health keywords (App.py line 101). -/
def kwSanita : List String := ["salute", "health", "santé", "doctor"]

/-- Rights keywords (App.py line 105). -/
def kwDiritti : List String := ["diritti", "rights", "droits", "legal"]

/-- All keywords of all five keyword categories, in priority order. -/
def allKeywords : List String :=
  kwPermesso ++ kwLavoro ++ kwCasa ++ kwSanita ++ kwDiritti

/-- The five keyword categories of the chain (App.py lines 89-108) in
priority order; each branch's `answers[...]` lookup key coincides with its
category label. -/
def keywordChain : List (List String × String) :=
  [(kwPermesso, "permesso_soggiorno"), (kwLavoro, "lavoro"), (kwCasa, "casa"),
   (kwSanita, "sanita"), (kwDiritti, "diritti")]

/-- Line 86: the effective language is the requested one when it is a key of
`SAMPLE_RESPONSES`, otherwise the default `"it"`. -/
def effectiveLanguage (language : String) : String :=
  if (SAMPLE_RESPONSES.lookup language).isSome then language else "it"

/-- The `if`/`elif` chain of App.py lines 89-112, read as a selector: each
branch fixes the lookup key used for `answers[...]`, the `category` label and
the `confidence`.  The final `else` branch looks up `"default"` but labels the
response `"generale"`. -/
def classify (message : List Char) : String × String × ℚ :=
  if containsAny message kwPermesso then ("permesso_soggiorno", "permesso_soggiorno", 0.9)
  else if containsAny message kwLavoro then ("lavoro", "lavoro", 0.85)
  else if containsAny message kwCasa then ("casa", "casa", 0.85)
  else if containsAny message kwSanita then ("sanita", "sanita", 0.85)
  else if containsAny message kwDiritti then ("diritti", "diritti", 0.85)
  else ("default", "generale", 0.7)

/-- The two static source citations (App.py lines 117-120). -/
def staticSources : List SourceLink :=
  [⟨"JOKKO KB", "https://ym.vercel.app"⟩,
   ⟨"Ministero Interno", "https://www.interno.gov.it"⟩]

/-- The body of the `chat` handler inside the `try` (App.py lines 84-123):
lowercase the message, resolve the effective language, select the table
(`answers = SAMPLE_RESPONSES[language]`, line 87), run the keyword chain,
look up the branch's canned text and assemble the `ChatResponse`.  An
`Except.error` is a Python exception escaping the body. -/
def chatBody (req : ChatRequest) : Except String ChatResponse :=
  match dictGet SAMPLE_RESPONSES (effectiveLanguage req.language) with
  | Except.error e => Except.error e
  | Except.ok answers =>
    match dictGet answers (classify (lower req.message)).1 with
    | Except.error e => Except.error e
    | Except.ok response =>
      Except.ok { response := response,
                  language := effectiveLanguage req.language,
                  sources := staticSources,
                  category := (classify (lower req.message)).2.1,
                  confidence := (classify (lower req.message)).2.2 }

/-- The `except Exception` boundary (App.py lines 124-125): a successful body
passes through; any exception is converted to
`HTTPException(status_code=500, detail="Errore: " + str(e))`. -/
def handleBoundary (body : Except String ChatResponse) :
    Except HTTPException ChatResponse :=
  match body with
  | Except.ok r => Except.ok r
  | Except.error e => Except.error { status_code := 500, detail := "Errore: " ++ e }

/-- The `POST /api/chat` handler (App.py lines 82-125). -/
def chat (req : ChatRequest) : Except HTTPException ChatResponse :=
  handleBoundary (chatBody req)

/-- The `GET /api/health` payload shape (App.py lines 74-80). -/
structure HealthResponse where
  status : String
  message : String
  languages : List (String × String)
deriving DecidableEq, Repr

/-- The `health` endpoint (App.py lines 74-80): it takes no input and reads
only the process-wide constant `SUPPORTED_LANGUAGES`. -/
def health : HealthResponse :=
  { status := "ok", message := "JOKKO AI funzionante", languages := SUPPORTED_LANGUAGES }

/-! ### Helper lemmas -/

/-- `dictGet` succeeds exactly on present keys, with the looked-up value. -/
lemma dictGet_eq_ok_iff {α : Type} (d : List (String × α)) (k : String) (v : α) :
    dictGet d k = Except.ok v ↔ d.lookup k = some v := by
  unfold dictGet
  cases h : d.lookup k <;> simp

/-- A lookup in the three-entry `SAMPLE_RESPONSES` table either misses or
identifies one of the three language tables. -/
lemma lookup_SAMPLE_cases (l : String) :
    SAMPLE_RESPONSES.lookup l = none ∨
    (l = "it" ∧ SAMPLE_RESPONSES.lookup l = some itResponses) ∨
    (l = "en" ∧ SAMPLE_RESPONSES.lookup l = some enResponses) ∨
    (l = "fr" ∧ SAMPLE_RESPONSES.lookup l = some frResponses) := by
  by_cases h1 : l = "it"
  · subst h1; right; left; exact ⟨rfl, rfl⟩
  by_cases h2 : l = "en"
  · subst h2; right; right; left; exact ⟨rfl, rfl⟩
  by_cases h3 : l = "fr"
  · subst h3; right; right; right; exact ⟨rfl, rfl⟩
  left
  have e1 : (l == "it") = false := beq_eq_false_iff_ne.mpr h1
  have e2 : (l == "en") = false := beq_eq_false_iff_ne.mpr h2
  have e3 : (l == "fr") = false := beq_eq_false_iff_ne.mpr h3
  simp [SAMPLE_RESPONSES, List.lookup, e1, e2, e3]

/-- The effective language is always one of the three populated codes. -/
lemma effectiveLanguage_mem (l : String) :
    effectiveLanguage l ∈ ["it", "en", "fr"] := by
  unfold effectiveLanguage
  rcases lookup_SAMPLE_cases l with h | ⟨he, h⟩ | ⟨he, h⟩ | ⟨he, h⟩
  · simp [h]
  · subst he; simp [h]
  · subst he; simp [h]
  · subst he; simp [h]

/-- The table selected through the effective language exists and is one of
the three language tables. -/
lemma answers_exists (l : String) :
    ∃ a, SAMPLE_RESPONSES.lookup (effectiveLanguage l) = some a ∧
      (a = itResponses ∨ a = enResponses ∨ a = frResponses) := by
  rcases lookup_SAMPLE_cases l with h | ⟨he, h⟩ | ⟨he, h⟩ | ⟨he, h⟩
  · have hl : effectiveLanguage l = "it" := by unfold effectiveLanguage; simp [h]
    exact ⟨itResponses, by rw [hl]; rfl, Or.inl rfl⟩
  · have hl : effectiveLanguage l = l := by unfold effectiveLanguage; simp [h]
    exact ⟨itResponses, by rw [hl]; exact h, Or.inl rfl⟩
  · have hl : effectiveLanguage l = l := by unfold effectiveLanguage; simp [h]
    exact ⟨enResponses, by rw [hl]; exact h, Or.inr (Or.inl rfl)⟩
  · have hl : effectiveLanguage l = l := by unfold effectiveLanguage; simp [h]
    exact ⟨frResponses, by rw [hl]; exact h, Or.inr (Or.inr rfl)⟩

/-- The keyword chain can only produce one of six `(key, category,
confidence)` triples. -/
lemma classify_cases (m : List Char) :
    classify m ∈ [("permesso_soggiorno", "permesso_soggiorno", (0.9 : ℚ)),
                  ("lavoro", "lavoro", 0.85), ("casa", "casa", 0.85),
                  ("sanita", "sanita", 0.85), ("diritti", "diritti", 0.85),
                  ("default", "generale", 0.7)] := by
  unfold classify
  repeat' split
  all_goals simp

/-- The lookup key produced by the chain is one of the six table keys. -/
lemma classify_key_mem (m : List Char) :
    (classify m).1 ∈ ["permesso_soggiorno", "lavoro", "casa", "sanita",
                      "diritti", "default"] := by
  rcases List.mem_cons.mp (classify_cases m) with h | h
  · rw [h]; simp
  rcases List.mem_cons.mp h with h | h
  · rw [h]; simp
  rcases List.mem_cons.mp h with h | h
  · rw [h]; simp
  rcases List.mem_cons.mp h with h | h
  · rw [h]; simp
  rcases List.mem_cons.mp h with h | h
  · rw [h]; simp
  rcases List.mem_cons.mp h with h | h
  · rw [h]; simp
  simp at h

/-- Every one of the six keys is present in each of the three tables. -/
lemma dictGet_tables_ok (a : List (String × String))
    (ha : a = itResponses ∨ a = enResponses ∨ a = frResponses)
    (k : String)
    (hk : k ∈ ["permesso_soggiorno", "lavoro", "casa", "sanita", "diritti",
               "default"]) :
    ∃ v, dictGet a k = Except.ok v := by
  simp only [List.mem_cons, List.not_mem_nil, or_false] at hk
  rcases ha with rfl | rfl | rfl <;>
    rcases hk with rfl | rfl | rfl | rfl | rfl | rfl <;>
    exact ⟨_, rfl⟩

/-- Master characterization: every request produces a successful response
whose fields are the effective language, the chain's category and
confidence, and the canned text looked up under the chain's key in the
selected table. -/
lemma chat_ok (req : ChatRequest) :
    ∃ answers response,
      SAMPLE_RESPONSES.lookup (effectiveLanguage req.language) = some answers ∧
      answers.lookup (classify (lower req.message)).1 = some response ∧
      chat req = Except.ok
        { response := response,
          language := effectiveLanguage req.language,
          sources := staticSources,
          category := (classify (lower req.message)).2.1,
          confidence := (classify (lower req.message)).2.2 } := by
  obtain ⟨a, ha, hmem⟩ := answers_exists req.language
  obtain ⟨v, hv⟩ := dictGet_tables_ok a hmem _ (classify_key_mem (lower req.message))
  refine ⟨a, v, ha, (dictGet_eq_ok_iff a _ v).mp hv, ?_⟩
  unfold chat handleBoundary chatBody
  rw [(dictGet_eq_ok_iff SAMPLE_RESPONSES _ a).mpr ha]
  dsimp only
  rw [hv]

/-- A keyword list matches when one of its members occurs in the message. -/
lemma containsAny_of_mem {m : List Char} {ks : List String}
    (h : ∃ k ∈ ks, k.data <:+: m) : containsAny m ks = true := by
  rcases h with ⟨k, hk, hi⟩
  simp only [containsAny, List.any_eq_true]
  exact ⟨k, hk, by simpa [pyIn] using hi⟩

/-- A keyword list fails to match when none of its members occurs. -/
lemma containsAny_eq_false {m : List Char} {ks : List String}
    (h : ∀ k ∈ ks, ¬ (k.data <:+: m)) : containsAny m ks = false := by
  rw [Bool.eq_false_iff]
  intro hc
  rcases List.any_eq_true.mp hc with ⟨k, hk, hp⟩
  exact h k hk (by simpa [pyIn] using hp)

/-- A residence-permit keyword hit takes the first branch. -/
lemma classify_of_permesso {m : List Char}
    (h : containsAny m kwPermesso = true) :
    classify m = ("permesso_soggiorno", "permesso_soggiorno", 0.9) := by
  unfold classify
  rw [h]
  simp

/-- With the first branch missed, a work keyword hit takes the second. -/
lemma classify_of_lavoro {m : List Char}
    (h1 : containsAny m kwPermesso = false)
    (h : containsAny m kwLavoro = true) :
    classify m = ("lavoro", "lavoro", 0.85) := by
  unfold classify
  rw [h1, h]
  simp

/-- With the first two branches missed, a housing keyword hit wins. -/
lemma classify_of_casa {m : List Char}
    (h1 : containsAny m kwPermesso = false)
    (h2 : containsAny m kwLavoro = false)
    (h : containsAny m kwCasa = true) :
    classify m = ("casa", "casa", 0.85) := by
  unfold classify
  rw [h1, h2, h]
  simp

/-- With the first three branches missed, a health keyword hit wins. -/
lemma classify_of_sanita {m : List Char}
    (h1 : containsAny m kwPermesso = false)
    (h2 : containsAny m kwLavoro = false)
    (h3 : containsAny m kwCasa = false)
    (h : containsAny m kwSanita = true) :
    classify m = ("sanita", "sanita", 0.85) := by
  unfold classify
  rw [h1, h2, h3, h]
  simp

/-- With the first four branches missed, a rights keyword hit wins. -/
lemma classify_of_diritti {m : List Char}
    (h1 : containsAny m kwPermesso = false)
    (h2 : containsAny m kwLavoro = false)
    (h3 : containsAny m kwCasa = false)
    (h4 : containsAny m kwSanita = false)
    (h : containsAny m kwDiritti = true) :
    classify m = ("diritti", "diritti", 0.85) := by
  unfold classify
  rw [h1, h2, h3, h4, h]
  simp

/-- With every keyword list missed, the chain falls back to the default. -/
lemma classify_of_none {m : List Char}
    (h1 : containsAny m kwPermesso = false)
    (h2 : containsAny m kwLavoro = false)
    (h3 : containsAny m kwCasa = false)
    (h4 : containsAny m kwSanita = false)
    (h5 : containsAny m kwDiritti = false) :
    classify m = ("default", "generale", 0.7) := by
  unfold classify
  rw [h1, h2, h3, h4, h5]
  simp

/-- `chat` depends on the requested language only through the effective
language. -/
lemma chat_language_congr (msg : String) (uid : Option String) {l1 l2 : String}
    (h : effectiveLanguage l1 = effectiveLanguage l2) :
    chat { message := msg, language := l1, user_id := uid } =
      chat { message := msg, language := l2, user_id := uid } := by
  unfold chat handleBoundary chatBody
  dsimp only
  rw [h]

/-- When the message contains no keyword outside `kws`, any keyword list
drawn from outside `kws` fails to match. -/
lemma containsAny_false_of_honly {m : List Char} {kws : List String}
    (honly : ∀ k ∈ allKeywords, k ∉ kws → ¬ (k.data <:+: m))
    (ks : List String) (hsub : ∀ x ∈ ks, x ∈ allKeywords ∧ x ∉ kws) :
    containsAny m ks = false :=
  containsAny_eq_false fun k hk => honly k (hsub k hk).1 (hsub k hk).2

/-! ### Claim theorems -/

/-- C2: classification tests the keyword sets in a fixed order and the first
match wins: every message whose lowercased text contains both a
residence-permit keyword and a work keyword is classified
`"permesso_soggiorno"` with confidence `0.9`, for any requested language and
user id.  (The witness instantiates this at the message `"permesso lavoro"`
with language `"en"`.) -/
theorem chat_permesso_priority (msg lang : String) (uid : Option String)
    (hperm : ∃ k ∈ kwPermesso, k.data <:+: lower msg)
    (_hlav : ∃ k ∈ kwLavoro, k.data <:+: lower msg) :
    ∃ r, chat { message := msg, language := lang, user_id := uid } = Except.ok r ∧
      r.category = "permesso_soggiorno" ∧ r.confidence = 0.9 := by
  obtain ⟨a, v, ha, hlk, hchat⟩ :=
    chat_ok { message := msg, language := lang, user_id := uid }
  have hc := classify_of_permesso (containsAny_of_mem hperm)
  exact ⟨_, hchat, by simp [hc], by simp [hc]⟩

/-- Witness for C2: the message `"permesso lavoro"` contains both the
residence-permit keyword `"permesso"` and the work keyword `"lavoro"`, and
with language `"en"` the handler classifies it `"permesso_soggiorno"` with
confidence `0.9`. -/
theorem chat_permesso_priority_witness :
    ∃ r, chat { message := "permesso lavoro", language := "en", user_id := none } =
        Except.ok r ∧
      r.category = "permesso_soggiorno" ∧ r.confidence = 0.9 :=
  chat_permesso_priority "permesso lavoro" "en" none
    ⟨"permesso", by decide, by decide⟩ ⟨"lavoro", by decide, by decide⟩

/-- C3: a requested language that is not a key of `SAMPLE_RESPONSES` behaves
exactly like requesting the default `"it"`: the whole response coincides with
the Italian-request response, and its `language` field is `"it"`. -/
theorem chat_unsupported_language_falls_back (msg lang : String)
    (uid : Option String)
    (h : SAMPLE_RESPONSES.lookup lang = none) :
    chat { message := msg, language := lang, user_id := uid } =
      chat { message := msg, language := "it", user_id := uid } ∧
    ∀ r, chat { message := msg, language := lang, user_id := uid } = Except.ok r →
      r.language = "it" := by
  have hl : effectiveLanguage lang = "it" := by
    unfold effectiveLanguage
    simp [h]
  constructor
  · exact chat_language_congr msg uid (by rw [hl]; rfl)
  · intro r hr
    obtain ⟨a, v, ha, hlk, hchat⟩ :=
      chat_ok { message := msg, language := lang, user_id := uid }
    have hrr := Except.ok.inj (hr.symm.trans hchat)
    rw [hrr]
    exact hl

/-- Witness for C3: `"de"` is not a key of the response table, so the request
`{message := "casa", language := "de"}` produces the same response as the
Italian request, with `language = "it"`. -/
theorem chat_unsupported_language_falls_back_witness :
    chat { message := "casa", language := "de", user_id := none } =
      chat { message := "casa", language := "it", user_id := none } ∧
    ∀ r, chat { message := "casa", language := "de", user_id := none } =
        Except.ok r → r.language = "it" :=
  chat_unsupported_language_falls_back "casa" "de" none (by decide)

/-- C4: a message whose lowercased text contains none of the twenty known
keywords is classified `"generale"` with confidence `0.7`, and the response
text is the effective language's `"default"` entry.  The message ranges
over Latin-1 text (`_hdom`), the domain on which `lower` coincides exactly
with Python's `str.lower()`, so the no-keyword hypothesis and the
conclusion transfer verbatim to the program. -/
theorem chat_no_keyword_generale (msg lang : String) (uid : Option String)
    (_hdom : ∀ c ∈ msg.data, c.toNat < 256)
    (h : ∀ k ∈ allKeywords, ¬ (k.data <:+: lower msg)) :
    ∃ r, chat { message := msg, language := lang, user_id := uid } = Except.ok r ∧
      r.category = "generale" ∧ r.confidence = 0.7 ∧
      ∃ answers, SAMPLE_RESPONSES.lookup (effectiveLanguage lang) = some answers ∧
        answers.lookup "default" = some r.response := by
  have h1 : containsAny (lower msg) kwPermesso = false :=
    containsAny_eq_false (fun k hk => h k (by simp [allKeywords, hk]))
  have h2 : containsAny (lower msg) kwLavoro = false :=
    containsAny_eq_false (fun k hk => h k (by simp [allKeywords, hk]))
  have h3 : containsAny (lower msg) kwCasa = false :=
    containsAny_eq_false (fun k hk => h k (by simp [allKeywords, hk]))
  have h4 : containsAny (lower msg) kwSanita = false :=
    containsAny_eq_false (fun k hk => h k (by simp [allKeywords, hk]))
  have h5 : containsAny (lower msg) kwDiritti = false :=
    containsAny_eq_false (fun k hk => h k (by simp [allKeywords, hk]))
  have hc := classify_of_none h1 h2 h3 h4 h5
  obtain ⟨a, v, ha, hlk, hchat⟩ :=
    chat_ok { message := msg, language := lang, user_id := uid }
  refine ⟨_, hchat, by simp [hc], by simp [hc], a, ha, ?_⟩
  simpa [hc] using hlk

/-- Witness for C4: `"hello there"` contains no keyword, and with language
`"en"` the handler answers `"generale"`, confidence `0.7`, with the English
default greeting. -/
theorem chat_no_keyword_generale_witness :
    ∃ r, chat { message := "hello there", language := "en", user_id := none } =
        Except.ok r ∧
      r.category = "generale" ∧ r.confidence = 0.7 ∧
      ∃ answers, SAMPLE_RESPONSES.lookup (effectiveLanguage "en") = some answers ∧
        answers.lookup "default" = some r.response :=
  chat_no_keyword_generale "hello there" "en" none (by decide) (by decide)

/-- C5: the `except Exception` boundary (App.py lines 124-125).  The handler
is the boundary applied to the body, a successful body is passed through
unchanged, and every exception text `e` escaping the body is converted to the
generic `HTTPException` with status 500 whose detail `"Errore: " ++ e` embeds
the original failure text — the body's exception is never propagated as such,
only this `HTTPException` shape can leave the handler. -/
theorem chat_boundary_catches_errors :
    (∀ req : ChatRequest, chat req = handleBoundary (chatBody req)) ∧
    (∀ r : ChatResponse, handleBoundary (Except.ok r) = Except.ok r) ∧
    (∀ e : String,
      handleBoundary (Except.error e) =
        Except.error { status_code := 500, detail := "Errore: " ++ e } ∧
      ∃ pre, "Errore: " ++ e = pre ++ e) :=
  ⟨fun _ => rfl, fun _ => rfl, fun _e => ⟨rfl, "Errore: ", rfl⟩⟩

/-- C6: every request — whatever its message, language and user id — gets a
successful response whose `sources` are exactly the two static entries
`{JOKKO KB, https://ym.vercel.app}` and
`{Ministero Interno, https://www.interno.gov.it}`, in that order. -/
theorem chat_sources_static (req : ChatRequest) :
    ∃ r, chat req = Except.ok r ∧
      r.sources = [{ title := "JOKKO KB", url := "https://ym.vercel.app" },
                   { title := "Ministero Interno",
                     url := "https://www.interno.gov.it" }] := by
  obtain ⟨a, v, ha, hlk, hchat⟩ := chat_ok req
  exact ⟨_, hchat, rfl⟩

/-- C7: the handler body never fails: every language table of
`SAMPLE_RESPONSES` contains every key the chain can select (the five category
keys and `"default"`), and for every request the body returns a successful
`ChatResponse`, so the `except` branch is unreachable. -/
theorem chat_total :
    (∀ p ∈ SAMPLE_RESPONSES,
      ∀ c ∈ ["permesso_soggiorno", "lavoro", "casa", "sanita", "diritti",
             "default"], (p.2.lookup c).isSome = true) ∧
    (∀ req : ChatRequest, ∃ r, chatBody req = Except.ok r ∧
      chat req = Except.ok r) := by
  constructor
  · decide
  · intro req
    obtain ⟨a, v, ha, hlk, hchat⟩ := chat_ok req
    cases hb : chatBody req with
    | ok r =>
      have hcr : chat req = Except.ok r := by unfold chat handleBoundary; rw [hb]
      exact ⟨r, rfl, hcr⟩
    | error e =>
      have hcr : chat req =
          Except.error { status_code := 500, detail := "Errore: " ++ e } := by
        unfold chat handleBoundary
        rw [hb]
      rw [hchat] at hcr
      exact absurd hcr (by simp)

/-- C8: `user_id` has no effect: two requests differing only in `user_id`
(including present versus absent) produce identical results in every field. -/
theorem chat_user_id_irrelevant (msg lang : String) (u1 u2 : Option String) :
    chat { message := msg, language := lang, user_id := u1 } =
      chat { message := msg, language := lang, user_id := u2 } := rfl

/-- C10: the health endpoint takes no input and reads only process-wide
constants; it always reports status `"ok"` together with the full
eleven-entry supported-language map. -/
theorem health_static :
    health.status = "ok" ∧
    health.languages = SUPPORTED_LANGUAGES ∧
    SUPPORTED_LANGUAGES =
      [("it", "Italiano"), ("fr", "Français"), ("en", "English"),
       ("wo", "Wolof"), ("bm", "Bambara"), ("ha", "Hausa"), ("am", "Amarico"),
       ("ti", "Tigrinya"), ("lg", "Lingala"), ("ff", "Pulaar"),
       ("so", "Soninke")] ∧
    SUPPORTED_LANGUAGES.length = 11 :=
  ⟨rfl, rfl, rfl, rfl⟩

/-- C1: for every populated language `L` and every keyword category `C` of
the chain, a request in language `L` whose message contains a keyword unique
to `C` — one of `C`'s keywords, with the lowercased message matching no
keyword of any other category (otherwise claim C2's priority order applies)
— is answered with category `C` and with exactly the canned string stored
for `(L, C)` in `SAMPLE_RESPONSES`.  The message ranges over Latin-1 text
(`_hdom`), the domain on which `lower` coincides exactly with Python's
`str.lower()`, so both keyword hypotheses and the conclusion transfer
verbatim to the program. -/
theorem chat_unique_keyword_selects_category (L : String)
    (hL : L ∈ SAMPLE_RESPONSES.map Prod.fst)
    (kws : List String) (C : String) (hC : (kws, C) ∈ keywordChain)
    (msg : String) (uid : Option String)
    (_hdom : ∀ c ∈ msg.data, c.toNat < 256)
    (hhit : ∃ k ∈ kws, k.data <:+: lower msg)
    (honly : ∀ k ∈ allKeywords, k ∉ kws → ¬ (k.data <:+: lower msg)) :
    ∃ answers r, SAMPLE_RESPONSES.lookup L = some answers ∧
      chat { message := msg, language := L, user_id := uid } = Except.ok r ∧
      r.category = C ∧ answers.lookup C = some r.response := by
  have hLsup : (SAMPLE_RESPONSES.lookup L).isSome = true := by
    simp only [SAMPLE_RESPONSES, List.map, Prod.fst, List.mem_cons,
      List.not_mem_nil, or_false] at hL
    rcases hL with rfl | rfl | rfl <;> rfl
  have hEff : effectiveLanguage L = L := by
    unfold effectiveLanguage
    rw [if_pos hLsup]
  obtain ⟨a, v, ha, hlk, hchat⟩ :=
    chat_ok { message := msg, language := L, user_id := uid }
  have ha' : SAMPLE_RESPONSES.lookup L = some a := by
    rw [← hEff]; exact ha
  have hT := containsAny_of_mem hhit
  simp only [keywordChain, List.mem_cons, List.not_mem_nil, or_false,
    Prod.mk.injEq] at hC
  rcases hC with ⟨rfl, rfl⟩ | ⟨rfl, rfl⟩ | ⟨rfl, rfl⟩ | ⟨rfl, rfl⟩ | ⟨rfl, rfl⟩
  · have hc := classify_of_permesso hT
    exact ⟨a, _, ha', hchat, by simp [hc], by simpa [hc] using hlk⟩
  · have hc := classify_of_lavoro
      (containsAny_false_of_honly honly kwPermesso (by decide)) hT
    exact ⟨a, _, ha', hchat, by simp [hc], by simpa [hc] using hlk⟩
  · have hc := classify_of_casa
      (containsAny_false_of_honly honly kwPermesso (by decide))
      (containsAny_false_of_honly honly kwLavoro (by decide)) hT
    exact ⟨a, _, ha', hchat, by simp [hc], by simpa [hc] using hlk⟩
  · have hc := classify_of_sanita
      (containsAny_false_of_honly honly kwPermesso (by decide))
      (containsAny_false_of_honly honly kwLavoro (by decide))
      (containsAny_false_of_honly honly kwCasa (by decide)) hT
    exact ⟨a, _, ha', hchat, by simp [hc], by simpa [hc] using hlk⟩
  · have hc := classify_of_diritti
      (containsAny_false_of_honly honly kwPermesso (by decide))
      (containsAny_false_of_honly honly kwLavoro (by decide))
      (containsAny_false_of_honly honly kwCasa (by decide))
      (containsAny_false_of_honly honly kwSanita (by decide)) hT
    exact ⟨a, _, ha', hchat, by simp [hc], by simpa [hc] using hlk⟩

/-- Witness for C1: the request `{message := "house", language := "en"}` —
`"house"` being a keyword unique to the housing category — is answered with
category `"casa"` and the English housing string. -/
theorem chat_unique_keyword_selects_category_witness :
    ∃ answers r, SAMPLE_RESPONSES.lookup "en" = some answers ∧
      chat { message := "house", language := "en", user_id := none } =
        Except.ok r ∧
      r.category = "casa" ∧ answers.lookup "casa" = some r.response :=
  chat_unique_keyword_selects_category "en" (by decide) kwCasa "casa"
    (by decide) "house" none (by decide) ⟨"house", by decide, by decide⟩
    (by decide)

/-- C9: every successful response has one of the three populated language
codes, one of the six category labels, and the confidence determined by the
category: `0.9` for `"permesso_soggiorno"`, `0.7` for `"generale"`, `0.85`
otherwise. -/
theorem chat_response_invariant (req : ChatRequest) (r : ChatResponse)
    (h : chat req = Except.ok r) :
    r.language ∈ ["it", "en", "fr"] ∧
    r.category ∈ ["permesso_soggiorno", "lavoro", "casa", "sanita", "diritti",
                  "generale"] ∧
    r.confidence = (if r.category = "permesso_soggiorno" then (0.9 : ℚ)
      else if r.category = "generale" then 0.7 else 0.85) := by
  obtain ⟨a, v, ha, hlk, hchat⟩ := chat_ok req
  have hr := Except.ok.inj (h.symm.trans hchat)
  subst hr
  have hcc := classify_cases (lower req.message)
  simp only [List.mem_cons, List.not_mem_nil, or_false] at hcc
  refine ⟨effectiveLanguage_mem req.language, ?_, ?_⟩
  · dsimp only
    rcases hcc with hc | hc | hc | hc | hc | hc <;> rw [hc] <;> decide
  · dsimp only
    rcases hcc with hc | hc | hc | hc | hc | hc <;> rw [hc] <;> simp

/-- Witness for C9: the keyword-free Italian request `{message := "ciao"}`
produces the concrete `"generale"` response, which satisfies the invariant. -/
theorem chat_response_invariant_witness :
    ({ response := "Ciao! Sono JOKKO AI. Posso aiutarti su: permesso di soggiorno, lavoro, casa, sanità, diritti. Dimmi pure!",
       language := "it", sources := staticSources, category := "generale",
       confidence := 0.7 } : ChatResponse).language ∈ ["it", "en", "fr"] ∧
    ({ response := "Ciao! Sono JOKKO AI. Posso aiutarti su: permesso di soggiorno, lavoro, casa, sanità, diritti. Dimmi pure!",
       language := "it", sources := staticSources, category := "generale",
       confidence := 0.7 } : ChatResponse).category ∈
      ["permesso_soggiorno", "lavoro", "casa", "sanita", "diritti",
       "generale"] ∧
    ({ response := "Ciao! Sono JOKKO AI. Posso aiutarti su: permesso di soggiorno, lavoro, casa, sanità, diritti. Dimmi pure!",
       language := "it", sources := staticSources, category := "generale",
       confidence := 0.7 } : ChatResponse).confidence =
      (if ({ response := "Ciao! Sono JOKKO AI. Posso aiutarti su: permesso di soggiorno, lavoro, casa, sanità, diritti. Dimmi pure!",
             language := "it", sources := staticSources, category := "generale",
             confidence := 0.7 } : ChatResponse).category = "permesso_soggiorno"
       then (0.9 : ℚ)
       else if ({ response := "Ciao! Sono JOKKO AI. Posso aiutarti su: permesso di soggiorno, lavoro, casa, sanità, diritti. Dimmi pure!",
                  language := "it", sources := staticSources,
                  category := "generale",
                  confidence := 0.7 } : ChatResponse).category = "generale"
       then 0.7 else 0.85) :=
  chat_response_invariant { message := "ciao", language := "it", user_id := none }
    _ rfl

end Jokko
